import Mathlib

set_option maxRecDepth 8000

/-!
Shallow embedding of the PicoMessenger backend (src/backend/src/index.ts).

The Firestore document store is modelled by association lists keyed by
document id; a Firestore transaction is a pure state transition (the store
serializes transactions, so the sequential model is its linearization).
Each Express handler becomes a function from the store and the request
fields to a response paired with the resulting store.  JavaScript
truthiness of optional string fields is modelled explicitly (absent or
empty string is falsy).  String length is the number of characters.
-/

namespace PicoMessenger

/-- Device document (collection "devices", doc id = device_id). -/
structure DeviceData where
  device_id : String
  thread_id : String
  token : String
  pair_code : String
  name : String
deriving Repr, DecidableEq

/-- Message document (subcollection "messages" of a thread, doc id =
msg_id stringified).  The source field named from is called sender here
because from is a Lean keyword. -/
structure Message where
  msg_id : Nat
  sender : String
  text : String
  ts : Nat
deriving Repr, DecidableEq

/-- The whole Firestore state: devices by device_id, thread docs by
thread_id (their last_msg_id field), and each thread's messages
subcollection by thread_id. -/
structure Store where
  devices : List (String × DeviceData)
  threads : List (String × Nat)
  msgs : List (String × List Message)
deriving Repr, DecidableEq

/-- Document lookup by id in a collection. -/
def getAssoc {β : Type} (k : String) : List (String × β) → Option β
  | [] => none
  | p :: rest => if p.1 = k then some p.2 else getAssoc k rest

/-- Document write by id (t.set / t.update): replace the doc if present,
create it otherwise. -/
def setAssoc {β : Type} (k : String) (v : β) : List (String × β) → List (String × β)
  | [] => [(k, v)]
  | p :: rest => if p.1 = k then (k, v) :: rest else p :: setAssoc k v rest

/-- Write of a message document keyed by its msg_id. -/
def setMsg (m : Message) : List Message → List Message
  | [] => [m]
  | m2 :: rest => if m2.msg_id = m.msg_id then m :: rest else m2 :: setMsg m rest

/-- JavaScript truthiness fallback for strings: a || b is b when a is
absent or the empty string. -/
def strOr (a : Option String) (b : String) : String :=
  match a with
  | some s => if s = "" then b else s
  | none => b

/-- JavaScript falsiness of an optional string request field. -/
def jsFalsy (o : Option String) : Bool :=
  match o with
  | none => true
  | some s => s = ""

/-- Response of a handler: the 200 payload or status/error/detail from
sendError. -/
inductive Resp (α : Type) where
  | ok (v : α)
  | err (status : Nat) (error : String) (detail : String)
deriving Repr, DecidableEq

/-- Payload of POST /register. -/
structure RegisterOk where
  thread_id : String
  token : String
  poll_interval_ms : Nat
  pair_code : String
deriving Repr, DecidableEq

/-- Payload of the send endpoints. -/
structure SendOk where
  msg_id : Nat
  ts : Nat
deriving Repr, DecidableEq

/-- Payload of the pull endpoints. -/
structure PullOk where
  msgs : List Message
  latest : Int
deriving Repr, DecidableEq

/-- POST /register.  The random draws (fallback device id, fresh thread
id, token, 6-digit pair code) are inputs.  On an existing device doc the
transaction keeps thread_id and rotates token and pair_code; otherwise it
creates the device doc and a thread doc with last_msg_id 0. -/
def register (st : Store) (deviceIdOpt nameOpt : Option String)
    (freshDeviceId freshThreadId token pairCode : String) : RegisterOk × Store :=
  let finalDeviceId := strOr deviceIdOpt freshDeviceId
  match getAssoc finalDeviceId st.devices with
  | some d =>
      let d2 : DeviceData :=
        { d with token := token, pair_code := pairCode, name := strOr nameOpt d.name }
      (⟨d.thread_id, token, 2000, pairCode⟩,
       { st with devices := setAssoc finalDeviceId d2 st.devices })
  | none =>
      let d2 : DeviceData :=
        ⟨finalDeviceId, freshThreadId, token, pairCode, strOr nameOpt "Unknown Device"⟩
      (⟨freshThreadId, token, 2000, pairCode⟩,
       { st with devices := setAssoc finalDeviceId d2 st.devices,
                 threads := setAssoc freshThreadId 0 st.threads })

/-- Token lookup of verifyDeviceToken: first device doc whose token field
equals the presented token (the where-equals query with limit 1). -/
def authenticateByToken (st : Store) (token : String) : Option DeviceData :=
  (st.devices.find? (fun p => p.2.token == token)).map (fun p => p.2)

/-- Credential lookup of the web endpoints: first device doc matching
both thread_id and pair_code. -/
def authenticateByPair (st : Store) (tid pc : String) : Option DeviceData :=
  (st.devices.find? (fun p => p.2.thread_id == tid && p.2.pair_code == pc)).map (fun p => p.2)

/-- The characters of the string used both by startsWith and split in
verifyDeviceToken. -/
def bearerChars : List Char := "Bearer ".toList

/-- Characters before the next occurrence of sep (sep is nonempty). -/
def takeUntilSep (sep : List Char) : List Char → List Char
  | [] => []
  | c :: rest => if sep.isPrefixOf (c :: rest) then [] else c :: takeUntilSep sep rest

/-- Element 1 of the JavaScript split of the header on the bearer marker,
valid when the header starts with the marker: the characters after the
first marker up to the next marker occurrence. -/
def splitElem1 (h : String) : String :=
  String.mk (takeUntilSep bearerChars (h.toList.drop bearerChars.length))

/-- Device context attached to the request by the middleware. -/
structure AuthCtx where
  thread_id : String
  device_id : String
deriving Repr, DecidableEq

/-- Outcome of the verifyDeviceToken middleware. -/
inductive AuthResult where
  | ok (ctx : AuthCtx)
  | err (status : Nat) (error : String) (detail : String)
deriving Repr, DecidableEq

/-- verifyDeviceToken: 401 without a Bearer header, 403 when the token
matches no device doc, otherwise the device context. -/
def verifyDeviceToken (st : Store) (authHeader : Option String) : AuthResult :=
  match authHeader with
  | none => .err 401 "UNAUTHORIZED" "Missing token"
  | some h =>
      if bearerChars.isPrefixOf h.toList then
        match authenticateByToken st (splitElem1 h) with
        | none => .err 403 "FORBIDDEN" "Invalid token"
        | some d => .ok ⟨d.thread_id, d.device_id⟩
      else .err 401 "UNAUTHORIZED" "Missing token"

/-- The append transaction shared by /send and /web_send: read the thread
doc (none when it does not exist, which the handlers turn into a 500),
assign last_msg_id + 1, update the counter and write the message doc. -/
def appendTx (st : Store) (tid sender text : String) (ts : Nat) : Option (Nat × Store) :=
  match getAssoc tid st.threads with
  | none => none
  | some lastId =>
      let msgId := lastId + 1
      let coll := (getAssoc tid st.msgs).getD []
      some (msgId,
        { st with threads := setAssoc tid msgId st.threads,
                  msgs := setAssoc tid (setMsg ⟨msgId, sender, text, ts⟩ coll) st.msgs })

/-- Post-validation part of a send handler: run the transaction, answer
ok with the assigned id, or 500 when the transaction throws. -/
def sendCore (st : Store) (tid sender text : String) (ts : Nat) (failDetail : String) :
    Resp SendOk × Store :=
  match appendTx st tid sender text ts with
  | none => (.err 500 "INTERNAL_ERROR" failDetail, st)
  | some (msgId, st2) => (.ok ⟨msgId, ts⟩, st2)

/-- POST /send: token auth, then reject falsy or over-280 text, then the
append transaction with sender device. -/
def deviceSend (st : Store) (authHeader : Option String) (textOpt : Option String) (ts : Nat) :
    Resp SendOk × Store :=
  match verifyDeviceToken st authHeader with
  | .err s e d => (.err s e d, st)
  | .ok ctx =>
      let text := textOpt.getD ""
      if text = "" ∨ text.length > 280 then
        (.err 400 "BAD_REQUEST" "Text invalid (1-280 chars)", st)
      else sendCore st ctx.thread_id "device" text ts "Send failed"

/-- POST /web_send: reject missing fields, pair-code auth, then the
append transaction with sender web (note: no upper length check). -/
def webSend (st : Store) (tidOpt pcOpt textOpt : Option String) (ts : Nat) :
    Resp SendOk × Store :=
  if jsFalsy tidOpt || jsFalsy pcOpt || jsFalsy textOpt then
    (.err 400 "BAD_REQUEST" "Missing fields", st)
  else
    match authenticateByPair st (tidOpt.getD "") (pcOpt.getD "") with
    | none => (.err 403 "FORBIDDEN" "Invalid credentials", st)
    | some _ => sendCore st (tidOpt.getD "") "web" (textOpt.getD "") ts "Web send failed"

/-- Decimal value of a digit run. -/
def digitsToNat (ds : List Char) : Nat :=
  ds.foldl (fun a c => a * 10 + (c.toNat - 48)) 0

/-- Leading decimal digits of a character list, none when there are none. -/
def parseDigits (cs : List Char) : Option Nat :=
  let ds := cs.takeWhile (fun c => c.isDigit)
  if ds = [] then none else some (digitsToNat ds)

/-- JavaScript parseInt on a string, restricted to base 10: skip leading
whitespace, optional sign, then leading decimal digits; none models NaN.
(The 0x hex-prefix form of parseInt is irrelevant to the cursor use.) -/
def jsParseInt (s : String) : Option Int :=
  match s.toList.dropWhile (fun c => c.isWhitespace) with
  | '-' :: rest => (parseDigits rest).map (fun n => -(n : Int))
  | '+' :: rest => (parseDigits rest).map (fun n => (n : Int))
  | cs => (parseDigits cs).map (fun n => (n : Int))

/-- The cursor expression parseInt(after) || 0: a missing parameter or a
NaN parse (and a parsed 0) give 0. -/
def parseIntOr0 (q : Option String) : Int :=
  match q with
  | none => 0
  | some s => (jsParseInt s).getD 0

/-- Boolean comparison of messages by msg_id, the orderBy key. -/
def msgLe (a b : Message) : Bool := a.msg_id ≤ b.msg_id

/-- The Firestore query of the pull handlers: messages with msg_id
strictly greater than the cursor, ordered ascending by msg_id, truncated
to the limit. -/
def queryAfter (coll : List Message) (after : Int) (limit : Nat) : List Message :=
  ((coll.filter (fun m => after < (m.msg_id : Int))).mergeSort msgLe).take limit

/-- The latest field of a pull response: msg_id of the last returned
message, or the cursor unchanged when nothing was returned. -/
def latestOf (out : List Message) (after : Int) : Int :=
  match out.getLast? with
  | some m => (m.msg_id : Int)
  | none => after

/-- Messages subcollection of a thread (empty when absent). -/
def collOf (st : Store) (tid : String) : List Message :=
  (getAssoc tid st.msgs).getD []

/-- Shared read of both pull handlers: the query window and latest. -/
def readSince (st : Store) (tid : String) (after : Int) (limit : Nat) : PullOk :=
  let out := queryAfter (collOf st tid) after limit
  ⟨out, latestOf out after⟩

/-- GET /pull: token auth, cursor parse, read with the device limit 3. -/
def devicePull (st : Store) (authHeader : Option String) (afterQ : Option String) :
    Resp PullOk × Store :=
  match verifyDeviceToken st authHeader with
  | .err s e d => (.err s e d, st)
  | .ok ctx => (.ok (readSince st ctx.thread_id (parseIntOr0 afterQ) 3), st)

/-- GET /web_pull: reject missing credentials, pair-code auth, read with
the web limit 20. -/
def webPull (st : Store) (tidOpt pcOpt afterQ : Option String) : Resp PullOk × Store :=
  let afterNum := parseIntOr0 afterQ
  if jsFalsy tidOpt || jsFalsy pcOpt then
    (.err 400 "BAD_REQUEST" "Missing auth", st)
  else
    match authenticateByPair st (tidOpt.getD "") (pcOpt.getD "") with
    | none => (.err 403 "FORBIDDEN" "Invalid credentials", st)
    | some _ => (.ok (readSince st (tidOpt.getD "") afterNum 20), st)

/-- A run of append transactions against one thread (interleaved device
and web sends, in commit order): the list of assigned ids and the final
store. -/
def runAppends (st : Store) (tid : String) : List (String × String × Nat) → List Nat × Store
  | [] => ([], st)
  | op :: rest =>
      match appendTx st tid op.1 op.2.1 op.2.2 with
      | none => ([], st)
      | some (msgId, st2) =>
          let r := runAppends st2 tid rest
          (msgId :: r.1, r.2)

/-! Helper lemmas about the store primitives. -/

theorem getAssoc_setAssoc_self {β : Type} (k : String) (v : β) (l : List (String × β)) :
    getAssoc k (setAssoc k v l) = some v := by
  induction l with
  | nil => simp [getAssoc, setAssoc]
  | cons p rest ih =>
      by_cases h : p.1 = k
      · simp [setAssoc, getAssoc, h]
      · simp [setAssoc, getAssoc, h, ih]

theorem getAssoc_setAssoc_ne {β : Type} {k k2 : String} (v : β) (l : List (String × β))
    (h : k2 ≠ k) : getAssoc k2 (setAssoc k v l) = getAssoc k2 l := by
  have hkk : ¬ k = k2 := fun he => h he.symm
  induction l with
  | nil => simp [getAssoc, setAssoc, hkk]
  | cons p rest ih =>
      by_cases hp : p.1 = k
      · have hpk2 : ¬ p.1 = k2 := fun he => hkk (hp ▸ he)
        simp [setAssoc, getAssoc, hp, hkk, hpk2]
      · simp [setAssoc, getAssoc, hp, ih]

theorem mem_setAssoc {β : Type} {p : String × β} {k : String} {v : β} {l : List (String × β)}
    (hk : (l.map Prod.fst).Nodup) (hp : p ∈ setAssoc k v l) :
    p = (k, v) ∨ (p ∈ l ∧ p.1 ≠ k) := by
  induction l with
  | nil => simp [setAssoc] at hp; exact Or.inl hp
  | cons q rest ih =>
      simp only [List.map_cons, List.nodup_cons] at hk
      by_cases hq : q.1 = k
      · simp only [setAssoc, hq, if_pos] at hp
        rcases List.mem_cons.1 hp with h1 | h2
        · exact Or.inl h1
        · refine Or.inr ⟨List.mem_cons_of_mem q h2, ?_⟩
          intro hpk
          exact hk.1 (hq ▸ hpk ▸ List.mem_map_of_mem Prod.fst h2)
      · simp only [setAssoc, hq, if_neg] at hp
        rcases List.mem_cons.1 hp with h1 | h2
        · exact Or.inr ⟨h1 ▸ List.mem_cons_self q rest, h1 ▸ hq⟩
        · rcases ih hk.2 h2 with h3 | ⟨h4, h5⟩
          · exact Or.inl h3
          · exact Or.inr ⟨List.mem_cons_of_mem q h4, h5⟩

theorem verifyDeviceToken_not_bearer (st : Store) (h : String)
    (hb : bearerChars.isPrefixOf h.toList = false) :
    verifyDeviceToken st (some h) = .err 401 "UNAUTHORIZED" "Missing token" := by
  simp only [verifyDeviceToken, hb]
  rfl

theorem verifyDeviceToken_no_match (st : Store) (h : String)
    (hb : bearerChars.isPrefixOf h.toList = true)
    (hn : authenticateByToken st (splitElem1 h) = none) :
    verifyDeviceToken st (some h) = .err 403 "FORBIDDEN" "Invalid token" := by
  simp only [verifyDeviceToken, hb, hn]
  rfl

theorem devicePull_store_eq (st : Store) (ah afterQ : Option String) :
    (devicePull st ah afterQ).2 = st := by
  unfold devicePull
  split <;> rfl

theorem webPull_store_eq (st : Store) (tidOpt pcOpt afterQ : Option String) :
    (webPull st tidOpt pcOpt afterQ).2 = st := by
  unfold webPull
  split
  · rfl
  · split <;> rfl

/-- C9: every pull is read-only: both pull handlers return the store they
were given, so no device record, thread record (including last_msg_id) or
message record changes.  The authentication lookups (authenticateByToken,
authenticateByPair, verifyDeviceToken) are functions of the store that
return no store at all, so the embedding makes their read-only nature a
typing fact used here through the pull handlers that call them. -/
theorem pulls_are_read_only (st : Store) (ah tidOpt pcOpt afterQ afterQ2 : Option String) :
    (devicePull st ah afterQ).2 = st ∧ (webPull st tidOpt pcOpt afterQ2).2 = st :=
  ⟨devicePull_store_eq st ah afterQ, webPull_store_eq st tidOpt pcOpt afterQ2⟩

/-- C8: with the store fixed and the cursor fixed, pulling again right
after a pull (no append in between) gives the identical response and
store, for both the device and the web pull. -/
theorem pull_repeat_same_result (st : Store) (ah tidOpt pcOpt afterQ afterQ2 : Option String) :
    devicePull (devicePull st ah afterQ).2 ah afterQ = devicePull st ah afterQ ∧
    webPull (webPull st tidOpt pcOpt afterQ2).2 tidOpt pcOpt afterQ2 =
      webPull st tidOpt pcOpt afterQ2 := by
  constructor
  · rw [devicePull_store_eq]
  · rw [webPull_store_eq]

/-- C7: a device send or pull with no Authorization header, or one not of
the Bearer shape, answers 401 UNAUTHORIZED; a presented Bearer token that
matches no device record answers 403 FORBIDDEN; in every failure case the
store is unchanged and the response carries no thread or message data. -/
theorem device_auth_failures (st : Store) (textOpt afterQ : Option String) (ts : Nat) :
    (deviceSend st none textOpt ts = (.err 401 "UNAUTHORIZED" "Missing token", st) ∧
     devicePull st none afterQ = (.err 401 "UNAUTHORIZED" "Missing token", st)) ∧
    (∀ h : String, bearerChars.isPrefixOf h.toList = false →
     deviceSend st (some h) textOpt ts = (.err 401 "UNAUTHORIZED" "Missing token", st) ∧
     devicePull st (some h) afterQ = (.err 401 "UNAUTHORIZED" "Missing token", st)) ∧
    (∀ h : String, bearerChars.isPrefixOf h.toList = true →
     authenticateByToken st (splitElem1 h) = none →
     deviceSend st (some h) textOpt ts = (.err 403 "FORBIDDEN" "Invalid token", st) ∧
     devicePull st (some h) afterQ = (.err 403 "FORBIDDEN" "Invalid token", st)) := by
  refine ⟨⟨rfl, rfl⟩, ?_, ?_⟩
  · intro h hb
    have hv := verifyDeviceToken_not_bearer st h hb
    constructor <;> simp [deviceSend, devicePull, hv]
  · intro h hb hn
    have hv := verifyDeviceToken_no_match st h hb hn
    constructor <;> simp [deviceSend, devicePull, hv]

/-- C5: a web_pull whose thread_id and pair_code are present but match no
device record answers exactly 403 FORBIDDEN with the fixed error payload
and no message data, and the response value is the same constant whether
the thread does not exist or the pair code is wrong, for any store. -/
theorem web_pull_forbidden_uniform (st1 st2 : Store) (t1 p1 t2 p2 a1 a2 : Option String)
    (ht1 : jsFalsy t1 = false) (hp1 : jsFalsy p1 = false)
    (ht2 : jsFalsy t2 = false) (hp2 : jsFalsy p2 = false)
    (h1 : authenticateByPair st1 (t1.getD "") (p1.getD "") = none)
    (h2 : authenticateByPair st2 (t2.getD "") (p2.getD "") = none) :
    webPull st1 t1 p1 a1 = (.err 403 "FORBIDDEN" "Invalid credentials", st1) ∧
    (webPull st1 t1 p1 a1).1 = (webPull st2 t2 p2 a2).1 := by
  have e1 : webPull st1 t1 p1 a1 = (.err 403 "FORBIDDEN" "Invalid credentials", st1) := by
    simp [webPull, ht1, hp1, h1]
  have e2 : webPull st2 t2 p2 a2 = (.err 403 "FORBIDDEN" "Invalid credentials", st2) := by
    simp [webPull, ht2, hp2, h2]
  exact ⟨e1, by rw [e1, e2]⟩

/-- C6: first registration of a supplied device_id with no existing
record mints the fresh thread id, creates the thread record with
last_msg_id 0, writes the device record, and answers thread_id, token,
pair_code and the fixed poll_interval_ms 2000 (the literal in the
conclusion is the same for every store and device, so the cadence does
not vary per device). -/
theorem register_new_device (st : Store) (did : String) (nameOpt : Option String)
    (freshDeviceId freshThreadId token pairCode : String)
    (hdid : did ≠ "")
    (hnone : getAssoc did st.devices = none) :
    (register st (some did) nameOpt freshDeviceId freshThreadId token pairCode).1 =
      ⟨freshThreadId, token, 2000, pairCode⟩ ∧
    getAssoc freshThreadId
      (register st (some did) nameOpt freshDeviceId freshThreadId token pairCode).2.threads =
      some 0 ∧
    getAssoc did
      (register st (some did) nameOpt freshDeviceId freshThreadId token pairCode).2.devices =
      some ⟨did, freshThreadId, token, pairCode, strOr nameOpt "Unknown Device"⟩ := by
  have hs : strOr (some did) freshDeviceId = did := by simp [strOr, hdid]
  refine ⟨?_, ?_, ?_⟩ <;>
    simp [register, hs, hnone, getAssoc_setAssoc_self]

/-- C4: re-registering an existing device_id keeps its thread_id verbatim
in both the response and the stored record, overwrites token and
pair_code with the fresh values, and afterwards the old token matches no
device record, so authenticate_by_token on it fails.  The hypotheses say
the device-id keys are unique (they are Firestore document ids), that no
other device held the old token, and that the fresh token differs from
the old one. -/
theorem reregister_rotates_credentials (st : Store) (did : String) (d : DeviceData)
    (nameOpt : Option String) (freshDeviceId freshThreadId newTok newPc : String)
    (hdid : did ≠ "")
    (hkeys : (st.devices.map Prod.fst).Nodup)
    (hget : getAssoc did st.devices = some d)
    (hnew : newTok ≠ d.token)
    (holdU : ∀ p ∈ st.devices, p.1 ≠ did → p.2.token ≠ d.token) :
    (register st (some did) nameOpt freshDeviceId freshThreadId newTok newPc).1.thread_id =
      d.thread_id ∧
    getAssoc did
      (register st (some did) nameOpt freshDeviceId freshThreadId newTok newPc).2.devices =
      some { d with token := newTok, pair_code := newPc, name := strOr nameOpt d.name } ∧
    authenticateByToken
      (register st (some did) nameOpt freshDeviceId freshThreadId newTok newPc).2 d.token =
      none := by
  have hs : strOr (some did) freshDeviceId = did := by simp [strOr, hdid]
  refine ⟨?_, ?_, ?_⟩
  · simp [register, hs, hget]
  · simp [register, hs, hget, getAssoc_setAssoc_self]
  · simp only [register, hs, hget]
    simp only [authenticateByToken, Option.map_eq_none', List.find?_eq_none]
    intro p hp
    rcases mem_setAssoc hkeys hp with h1 | ⟨h2, h3⟩
    · subst h1
      simpa using hnew
    · simpa using holdU p h2 h3

/-- Spec of runAppends generalized over the starting counter: from a
thread whose last_msg_id is n, a run of k appends assigns exactly the ids
n+1, n+2, ..., n+k in order and leaves last_msg_id at n+k. -/
theorem runAppends_ids (tid : String) (ops : List (String × String × Nat)) :
    ∀ (st : Store) (n : Nat), getAssoc tid st.threads = some n →
      (runAppends st tid ops).1 = List.range' (n + 1) ops.length ∧
      getAssoc tid (runAppends st tid ops).2.threads = some (n + ops.length) := by
  induction ops with
  | nil =>
      intro st n h
      simpa [runAppends] using h
  | cons op rest ih =>
      intro st n h
      simp only [runAppends, appendTx, h]
      have h2 : getAssoc tid (setAssoc tid (n + 1) st.threads) = some (n + 1) :=
        getAssoc_setAssoc_self tid (n + 1) st.threads
      obtain ⟨i1, i2⟩ := ih
        { st with threads := setAssoc tid (n + 1) st.threads,
                  msgs := setAssoc tid
                    (setMsg ⟨n + 1, op.1, op.2.1, op.2.2⟩ ((getAssoc tid st.msgs).getD []))
                    st.msgs }
        (n + 1) h2
      constructor
      · simp [i1, List.range'_succ]
      · simpa [Nat.add_assoc, Nat.add_comm 1 rest.length] using i2

/-- C2: from a freshly registered thread (last_msg_id 0), any run of k
successful appends (device sends and web sends interleaved, in commit
order) assigns the msg_id values exactly 1, 2, ..., k, each exactly once
and in order; after the first i of them the thread's last_msg_id equals
i, the id just assigned, so the counter only increases and the ids from 1
to last_msg_id have no gap. -/
theorem appends_assign_sequential_ids (st : Store) (tid : String)
    (ops : List (String × String × Nat)) (h : getAssoc tid st.threads = some 0) :
    (runAppends st tid ops).1 = List.range' 1 ops.length ∧
    getAssoc tid (runAppends st tid ops).2.threads = some ops.length ∧
    ∀ i, i ≤ ops.length →
      getAssoc tid (runAppends st tid (ops.take i)).2.threads = some i := by
  obtain ⟨h1, h2⟩ := runAppends_ids tid ops st 0 h
  refine ⟨by simpa using h1, by simpa using h2, ?_⟩
  intro i hi
  obtain ⟨-, h3⟩ := runAppends_ids tid (ops.take i) st 0 h
  simpa [List.length_take, Nat.min_eq_left hi] using h3

theorem msgLe_trans : ∀ a b c : Message,
    msgLe a b = true → msgLe b c = true → msgLe a c = true := by
  intro a b c hab hbc
  simp only [msgLe, decide_eq_true_eq] at hab hbc ⊢
  omega

theorem msgLe_total : ∀ a b : Message, (msgLe a b || msgLe b a) = true := by
  intro a b
  simp only [msgLe, Bool.or_eq_true, decide_eq_true_eq]
  omega

/-- The pull query only keeps messages after the cursor, in strictly
ascending msg_id order (given unique message document ids), with at most
limit of them. -/
theorem queryAfter_spec (coll : List Message) (after : Int) (limit : Nat)
    (hnd : (coll.map Message.msg_id).Nodup) :
    (∀ m ∈ queryAfter coll after limit, after < (m.msg_id : Int)) ∧
    List.Pairwise (fun a b : Message => a.msg_id < b.msg_id) (queryAfter coll after limit) ∧
    (queryAfter coll after limit).length ≤ limit := by
  refine ⟨?_, ?_, List.length_take_le limit _⟩
  · intro m hm
    have h1 : m ∈ (coll.filter (fun m => after < (m.msg_id : Int))).mergeSort msgLe :=
      List.mem_of_mem_take hm
    have h2 : m ∈ coll.filter (fun m => after < (m.msg_id : Int)) :=
      (List.mergeSort_perm _ msgLe).mem_iff.1 h1
    simpa using List.of_mem_filter h2
  · have hsor : List.Pairwise (fun a b => msgLe a b = true)
        ((coll.filter (fun m => after < (m.msg_id : Int))).mergeSort msgLe) :=
      List.sorted_mergeSort msgLe_trans msgLe_total _
    have hndfl : ((coll.filter (fun m => after < (m.msg_id : Int))).map Message.msg_id).Nodup :=
      List.Nodup.sublist ((List.filter_sublist coll).map Message.msg_id) hnd
    have hndsrt :
        (((coll.filter (fun m => after < (m.msg_id : Int))).mergeSort msgLe).map
          Message.msg_id).Nodup :=
      (((List.mergeSort_perm _ msgLe).map Message.msg_id).symm).nodup hndfl
    have hne : List.Pairwise (fun a b : Message => a.msg_id ≠ b.msg_id)
        ((coll.filter (fun m => after < (m.msg_id : Int))).mergeSort msgLe) :=
      List.pairwise_map.1 hndsrt
    have hlt : List.Pairwise (fun a b : Message => a.msg_id < b.msg_id)
        ((coll.filter (fun m => after < (m.msg_id : Int))).mergeSort msgLe) := by
      refine (hsor.and hne).imp ?_
      intro a b hab
      have h1 : a.msg_id ≤ b.msg_id := by
        have := hab.1
        simpa [msgLe] using this
      exact Nat.lt_of_le_of_ne h1 hab.2
    exact hlt.take

/-- Properties of the shared read of the pull handlers: all returned
messages are past the cursor, strictly ascending, at most limit many, and
latest is the id of the last one or the unchanged cursor. -/
theorem readSince_spec (st : Store) (tid : String) (after : Int) (limit : Nat)
    (hnd : ((collOf st tid).map Message.msg_id).Nodup) :
    (∀ m ∈ (readSince st tid after limit).msgs, after < (m.msg_id : Int)) ∧
    List.Pairwise (fun a b : Message => a.msg_id < b.msg_id)
      (readSince st tid after limit).msgs ∧
    (readSince st tid after limit).msgs.length ≤ limit ∧
    ((readSince st tid after limit).msgs = [] →
      (readSince st tid after limit).latest = after) ∧
    (∀ m, (readSince st tid after limit).msgs.getLast? = some m →
      (readSince st tid after limit).latest = (m.msg_id : Int)) := by
  obtain ⟨h1, h2, h3⟩ := queryAfter_spec (collOf st tid) after limit hnd
  refine ⟨h1, h2, h3, ?_, ?_⟩
  · intro he
    show latestOf (queryAfter (collOf st tid) after limit) after = after
    rw [show queryAfter (collOf st tid) after limit = [] from he]
    rfl
  · intro m hm
    show latestOf (queryAfter (collOf st tid) after limit) after = (m.msg_id : Int)
    unfold latestOf
    rw [show (queryAfter (collOf st tid) after limit).getLast? = some m from hm]

/-- C3: an authenticated device pull is exactly the shared read with
limit 3 and an authenticated web pull the same read with limit 20, and
that read returns only messages with msg_id strictly greater than the
cursor, in strictly ascending msg_id order, truncated to the limit, with
latest the msg_id of the last returned message, or the cursor unchanged
when nothing qualifies.  Unique message document ids per thread is the
store well-formedness hypothesis. -/
theorem pull_window_correct (st : Store) (ah afterQ tidOpt pcOpt : Option String)
    (ctx : AuthCtx) (d : DeviceData)
    (hda : verifyDeviceToken st ah = .ok ctx)
    (hnd1 : ((collOf st ctx.thread_id).map Message.msg_id).Nodup)
    (ht : jsFalsy tidOpt = false) (hp : jsFalsy pcOpt = false)
    (hwa : authenticateByPair st (tidOpt.getD "") (pcOpt.getD "") = some d)
    (hnd2 : ((collOf st (tidOpt.getD "")).map Message.msg_id).Nodup) :
    devicePull st ah afterQ =
      (.ok (readSince st ctx.thread_id (parseIntOr0 afterQ) 3), st) ∧
    webPull st tidOpt pcOpt afterQ =
      (.ok (readSince st (tidOpt.getD "") (parseIntOr0 afterQ) 20), st) ∧
    ((∀ m ∈ (readSince st ctx.thread_id (parseIntOr0 afterQ) 3).msgs,
        parseIntOr0 afterQ < (m.msg_id : Int)) ∧
     List.Pairwise (fun a b : Message => a.msg_id < b.msg_id)
       (readSince st ctx.thread_id (parseIntOr0 afterQ) 3).msgs ∧
     (readSince st ctx.thread_id (parseIntOr0 afterQ) 3).msgs.length ≤ 3 ∧
     ((readSince st ctx.thread_id (parseIntOr0 afterQ) 3).msgs = [] →
       (readSince st ctx.thread_id (parseIntOr0 afterQ) 3).latest = parseIntOr0 afterQ) ∧
     (∀ m, (readSince st ctx.thread_id (parseIntOr0 afterQ) 3).msgs.getLast? = some m →
       (readSince st ctx.thread_id (parseIntOr0 afterQ) 3).latest = (m.msg_id : Int))) ∧
    ((∀ m ∈ (readSince st (tidOpt.getD "") (parseIntOr0 afterQ) 20).msgs,
        parseIntOr0 afterQ < (m.msg_id : Int)) ∧
     List.Pairwise (fun a b : Message => a.msg_id < b.msg_id)
       (readSince st (tidOpt.getD "") (parseIntOr0 afterQ) 20).msgs ∧
     (readSince st (tidOpt.getD "") (parseIntOr0 afterQ) 20).msgs.length ≤ 20 ∧
     ((readSince st (tidOpt.getD "") (parseIntOr0 afterQ) 20).msgs = [] →
       (readSince st (tidOpt.getD "") (parseIntOr0 afterQ) 20).latest = parseIntOr0 afterQ) ∧
     (∀ m, (readSince st (tidOpt.getD "") (parseIntOr0 afterQ) 20).msgs.getLast? = some m →
       (readSince st (tidOpt.getD "") (parseIntOr0 afterQ) 20).latest = (m.msg_id : Int))) := by
  refine ⟨?_, ?_, readSince_spec st ctx.thread_id (parseIntOr0 afterQ) 3 hnd1,
    readSince_spec st (tidOpt.getD "") (parseIntOr0 afterQ) 20 hnd2⟩
  · simp [devicePull, hda]
  · simp [webPull, ht, hp, hwa]

theorem devicePull_cursor_congr (st : Store) (ah : Option String) (a b : Option String)
    (h : parseIntOr0 a = parseIntOr0 b) : devicePull st ah a = devicePull st ah b := by
  unfold devicePull
  simp only [h]

theorem webPull_cursor_congr (st : Store) (tidOpt pcOpt : Option String)
    (a b : Option String) (h : parseIntOr0 a = parseIntOr0 b) :
    webPull st tidOpt pcOpt a = webPull st tidOpt pcOpt b := by
  unfold webPull
  simp only [h]

/-- C10: a pull whose after query parameter is missing or does not parse
as an integer is not rejected: the cursor becomes 0, the request behaves
exactly like one with after equal to 0, and an authenticated device pull
answers the window of the thread from the beginning. -/
theorem pull_missing_cursor_defaults_zero (st : Store) (ah tidOpt pcOpt : Option String)
    (afterQ : Option String)
    (hq : afterQ = none ∨ ∃ s, afterQ = some s ∧ jsParseInt s = none) :
    parseIntOr0 afterQ = 0 ∧
    devicePull st ah afterQ = devicePull st ah (some "0") ∧
    webPull st tidOpt pcOpt afterQ = webPull st tidOpt pcOpt (some "0") ∧
    (∀ ctx, verifyDeviceToken st ah = .ok ctx →
      devicePull st ah afterQ = (.ok (readSince st ctx.thread_id 0 3), st)) := by
  have h0 : parseIntOr0 afterQ = 0 := by
    rcases hq with h | ⟨s, h1, h2⟩
    · simp [h, parseIntOr0]
    · subst h1
      simp [parseIntOr0, h2]
  have hz : parseIntOr0 (some "0") = 0 := by decide
  refine ⟨h0, devicePull_cursor_congr st ah afterQ (some "0") (h0.trans hz.symm),
    webPull_cursor_congr st tidOpt pcOpt afterQ (some "0") (h0.trans hz.symm), ?_⟩
  intro ctx hctx
  simp [devicePull, hctx, h0]

theorem string_eq_empty_of_length_eq_zero : ∀ s : String, s.length = 0 → s = "" := by
  intro s hs
  cases s with
  | mk data =>
      cases data with
      | nil => rfl
      | cons c cs => simp [String.length] at hs

/-- C1 (amended): on an authenticated device send, text of length 0 or
above 280 is rejected with 400 BAD_REQUEST and the store is unchanged,
while every length from 1 to 280 inclusive reaches the append transaction
and, when the thread exists, succeeds with the next id (in particular
lengths 1 and 280 succeed and 281 is rejected); web_send rejects only a
missing or empty text field with 400 BAD_REQUEST and forwards any
nonempty text, of any length, to the append transaction. -/
theorem send_length_validation (st : Store) (ah : Option String) (ctx : AuthCtx)
    (t : String) (ts n : Nat) (tidOpt pcOpt : Option String) (d : DeviceData)
    (hauth : verifyDeviceToken st ah = .ok ctx)
    (hw1 : jsFalsy tidOpt = false) (hw2 : jsFalsy pcOpt = false)
    (hwa : authenticateByPair st (tidOpt.getD "") (pcOpt.getD "") = some d) :
    (t.length = 0 ∨ 280 < t.length →
      deviceSend st ah (some t) ts =
        (.err 400 "BAD_REQUEST" "Text invalid (1-280 chars)", st)) ∧
    (1 ≤ t.length → t.length ≤ 280 →
      deviceSend st ah (some t) ts = sendCore st ctx.thread_id "device" t ts "Send failed") ∧
    (getAssoc ctx.thread_id st.threads = some n → 1 ≤ t.length → t.length ≤ 280 →
      (deviceSend st ah (some t) ts).1 = .ok ⟨n + 1, ts⟩) ∧
    webSend st tidOpt pcOpt (some "") ts = (.err 400 "BAD_REQUEST" "Missing fields", st) ∧
    webSend st tidOpt pcOpt none ts = (.err 400 "BAD_REQUEST" "Missing fields", st) ∧
    (1 ≤ t.length →
      webSend st tidOpt pcOpt (some t) ts =
        sendCore st (tidOpt.getD "") "web" t ts "Web send failed") := by
  have c2 : 1 ≤ t.length → t.length ≤ 280 →
      deviceSend st ah (some t) ts = sendCore st ctx.thread_id "device" t ts "Send failed" := by
    intro hl1 hl2
    have hne : ¬ (t = "" ∨ 280 < t.length) := by
      rintro (h | h)
      · rw [h] at hl1
        exact absurd hl1 (by decide)
      · omega
    simp only [deviceSend, hauth, Option.getD_some]
    rw [if_neg hne]
  refine ⟨?_, c2, ?_, ?_, ?_, ?_⟩
  · intro h
    have hcond : t = "" ∨ 280 < t.length := by
      rcases h with h | h
      · exact Or.inl (string_eq_empty_of_length_eq_zero t h)
      · exact Or.inr h
    simp only [deviceSend, hauth, Option.getD_some]
    rw [if_pos hcond]
  · intro hthr hl1 hl2
    rw [c2 hl1 hl2]
    simp [sendCore, appendTx, hthr]
  · simp [webSend, hw1, hw2, jsFalsy]
  · simp [webSend, hw1, hw2, jsFalsy]
  · intro hl
    have htne : ¬ t = "" := by
      intro he
      rw [he] at hl
      exact absurd hl (by decide)
    have hft : jsFalsy (some t) = false := by simp [jsFalsy, htne]
    simp [webSend, hw1, hw2, hft, hwa]

/-- Concrete store for the witnesses: one registered device dev1 holding
token tok1 and pair code 123456 on the fresh thread t1. -/
def demoStore : Store :=
  ⟨[("dev1", ⟨"dev1", "t1", "tok1", "123456", "Pico"⟩)], [("t1", 0)], []⟩

/-- Concrete store whose thread t1 already holds two messages. -/
def demoStore2 : Store :=
  ⟨[("dev1", ⟨"dev1", "t1", "tok1", "123456", "Pico"⟩)], [("t1", 2)],
   [("t1", [⟨1, "device", "hi", 100⟩, ⟨2, "web", "hey", 101⟩])]⟩

/-- A 281-character text. -/
def longText : String := String.mk (List.replicate 281 'a')

/-- C1 counterexample: with valid credentials, web_send of a
281-character text is not rejected: it answers ok with msg_id 1 and the
store changes, where the claim demands 400 BAD_REQUEST and an unchanged
store for any length above 280. -/
theorem web_send_accepts_length_281 :
    longText.length = 281 ∧
    (webSend demoStore (some "t1") (some "123456") (some longText) 7).1 = .ok ⟨1, 7⟩ ∧
    (webSend demoStore (some "t1") (some "123456") (some longText) 7).2 ≠ demoStore := by
  refine ⟨by decide, by decide, by decide⟩

theorem send_length_validation_witness :
    deviceSend demoStore (some "Bearer tok1") (some longText) 5 =
      (.err 400 "BAD_REQUEST" "Text invalid (1-280 chars)", demoStore) ∧
    (deviceSend demoStore (some "Bearer tok1") (some "x") 5).1 = .ok ⟨1, 5⟩ ∧
    webSend demoStore (some "t1") (some "123456") (some "x") 5 =
      sendCore demoStore "t1" "web" "x" 5 "Web send failed" := by
  refine ⟨?_, ?_, ?_⟩
  · exact (send_length_validation demoStore (some "Bearer tok1") ⟨"t1", "dev1"⟩ longText 5 0
      (some "t1") (some "123456") ⟨"dev1", "t1", "tok1", "123456", "Pico"⟩
      (by decide) (by decide) (by decide) (by decide)).1 (by decide)
  · exact (send_length_validation demoStore (some "Bearer tok1") ⟨"t1", "dev1"⟩ "x" 5 0
      (some "t1") (some "123456") ⟨"dev1", "t1", "tok1", "123456", "Pico"⟩
      (by decide) (by decide) (by decide) (by decide)).2.2.1 (by decide) (by decide) (by decide)
  · exact (send_length_validation demoStore (some "Bearer tok1") ⟨"t1", "dev1"⟩ "x" 5 0
      (some "t1") (some "123456") ⟨"dev1", "t1", "tok1", "123456", "Pico"⟩
      (by decide) (by decide) (by decide) (by decide)).2.2.2.2.2 (by decide)

theorem appends_assign_sequential_ids_witness :
    (runAppends demoStore "t1" [("device", "hi", 100), ("web", "hey", 101)]).1 =
      List.range' 1 2 ∧
    getAssoc "t1"
      (runAppends demoStore "t1" [("device", "hi", 100), ("web", "hey", 101)]).2.threads =
      some 2 := by
  have h := appends_assign_sequential_ids demoStore "t1"
    [("device", "hi", 100), ("web", "hey", 101)] (by decide)
  exact ⟨h.1, h.2.1⟩

theorem pull_window_correct_witness :
    devicePull demoStore2 (some "Bearer tok1") none =
      (.ok (readSince demoStore2 "t1" (parseIntOr0 none) 3), demoStore2) ∧
    webPull demoStore2 (some "t1") (some "123456") none =
      (.ok (readSince demoStore2 "t1" (parseIntOr0 none) 20), demoStore2) := by
  have h := pull_window_correct demoStore2 (some "Bearer tok1") none (some "t1")
    (some "123456") ⟨"t1", "dev1"⟩ ⟨"dev1", "t1", "tok1", "123456", "Pico"⟩
    (by decide) (by decide) (by decide) (by decide) (by decide) (by decide)
  exact ⟨h.1, h.2.1⟩

theorem reregister_rotates_credentials_witness :
    (register demoStore (some "dev1") none "f" "t9" "tok2" "654321").1.thread_id = "t1" ∧
    authenticateByToken
      (register demoStore (some "dev1") none "f" "t9" "tok2" "654321").2 "tok1" = none := by
  have h := reregister_rotates_credentials demoStore "dev1"
    ⟨"dev1", "t1", "tok1", "123456", "Pico"⟩ none "f" "t9" "tok2" "654321"
    (by decide) (by decide) (by decide) (by decide) (by decide)
  exact ⟨h.1, h.2.2⟩

theorem web_pull_forbidden_uniform_witness :
    webPull demoStore (some "t1") (some "999999") (some "0") =
      (.err 403 "FORBIDDEN" "Invalid credentials", demoStore) ∧
    (webPull demoStore (some "t1") (some "999999") (some "0")).1 =
      (webPull demoStore (some "zz") (some "123456") none).1 :=
  web_pull_forbidden_uniform demoStore demoStore (some "t1") (some "999999")
    (some "zz") (some "123456") (some "0") none
    (by decide) (by decide) (by decide) (by decide) (by decide) (by decide)

theorem register_new_device_witness :
    (register demoStore (some "dev2") none "f" "t2" "tokN" "111111").1 =
      ⟨"t2", "tokN", 2000, "111111"⟩ ∧
    getAssoc "t2"
      (register demoStore (some "dev2") none "f" "t2" "tokN" "111111").2.threads = some 0 := by
  have h := register_new_device demoStore "dev2" none "f" "t2" "tokN" "111111"
    (by decide) (by decide)
  exact ⟨h.1, h.2.1⟩

theorem device_auth_failures_witness :
    deviceSend demoStore none (some "hi") 5 =
      (.err 401 "UNAUTHORIZED" "Missing token", demoStore) ∧
    devicePull demoStore (some "Token x") (some "0") =
      (.err 401 "UNAUTHORIZED" "Missing token", demoStore) ∧
    deviceSend demoStore (some "Bearer zzz") (some "hi") 5 =
      (.err 403 "FORBIDDEN" "Invalid token", demoStore) :=
  ⟨(device_auth_failures demoStore (some "hi") (some "0") 5).1.1,
   ((device_auth_failures demoStore (some "hi") (some "0") 5).2.1 "Token x" (by decide)).2,
   ((device_auth_failures demoStore (some "hi") (some "0") 5).2.2 "Bearer zzz" (by decide)
     (by decide)).1⟩

theorem pull_missing_cursor_defaults_zero_witness :
    parseIntOr0 (some "abc") = 0 ∧
    devicePull demoStore2 (some "Bearer tok1") (some "abc") =
      (.ok (readSince demoStore2 "t1" 0 3), demoStore2) := by
  have h := pull_missing_cursor_defaults_zero demoStore2 (some "Bearer tok1")
    (some "t1") (some "123456") (some "abc") (Or.inr ⟨"abc", rfl, by decide⟩)
  exact ⟨h.1, h.2.2.2 ⟨"t1", "dev1"⟩ (by decide)⟩

end PicoMessenger
